import Mathlib

/-
Shallow embedding of the jotit kanban task tracker core.

The data model follows src/lib/db.ts (Todo, Status, Priority), the
repository follows src/lib/services/todo-service.ts, and the drag-end
controller follows handleDragEnd in src/components/ui/todo-board.tsx.
Timestamps (Date.now / new Date) are modelled as natural numbers supplied
by the caller as a clock parameter; order values are rationals, mirroring
the fractional midpoint ranks the board computes.  The Dexie table is a
list of records; db.todos.get is lookup by id, db.todos.update is a
field-merge on the matching record.
-/

/- Status union type from src/lib/db.ts: the five fixed columns. -/
inductive Status where
  | backlog
  | inProgress
  | blocked
  | done
  | canceled
  deriving DecidableEq

/- Priority union type from src/lib/db.ts. -/
inductive Priority where
  | low
  | medium
  | high
  | urgent
  deriving DecidableEq

/- A {title, url} pair as stored in Todo.links. -/
structure Link where
  title : String
  url : String
  deriving DecidableEq

/- A {id, text, createdAt} comment as stored in Todo.comments. -/
structure TodoComment where
  id : Nat
  text : String
  createdAt : Nat
  deriving DecidableEq

/- The Todo record of src/lib/db.ts. -/
structure Todo where
  id : Nat
  title : String
  description : Option String
  status : Status
  priority : Priority
  tags : List String
  links : List Link
  comments : List TodoComment
  order : Rat
  createdAt : Nat
  updatedAt : Nat
  deadline : Option Nat
  deriving DecidableEq

/- The Dexie table db.todos. -/
abbrev TodoTable := List Todo

/- UpdateTodoInput from src/lib/services/todo-service.ts: every field
optional; a `some` value models a key present in the partial update. -/
structure UpdateTodoInput where
  title : Option String := none
  description : Option String := none
  status : Option Status := none
  priority : Option Priority := none
  deadline : Option Nat := none
  order : Option Rat := none
  tags : Option (List String) := none
  links : Option (List Link) := none
  comments : Option (List TodoComment) := none
  deriving DecidableEq

/- The argument of todoService.create: Omit of Todo minus id, order,
updatedAt (src/lib/services/todo-service.ts line 25). -/
structure CreateTodoInput where
  title : String
  description : Option String := none
  status : Status
  priority : Priority
  tags : List String := []
  links : List Link := []
  comments : List TodoComment := []
  createdAt : Nat := 0
  deadline : Option Nat := none

/- db.todos.get(id): first record with the given id. -/
def dbGet (store : TodoTable) (id : Nat) : Option Todo :=
  store.find? (fun t => decide (t.id = id))

/- Dexie merge-update of one record: every key present in the partial
update replaces the stored field; updatedAt is always part of the patch
the service passes (updatedAt: new Date()), so it is set to the clock. -/
def mergeUpdate (t : Todo) (u : UpdateTodoInput) (now : Nat) : Todo :=
  { id := t.id
    title := u.title.getD t.title
    description := (u.description.map some).getD t.description
    status := u.status.getD t.status
    priority := u.priority.getD t.priority
    tags := u.tags.getD t.tags
    links := u.links.getD t.links
    comments := u.comments.getD t.comments
    order := u.order.getD t.order
    createdAt := t.createdAt
    updatedAt := now
    deadline := (u.deadline.map some).getD t.deadline }

/- db.todos.update(id, changes): merge the changes into the record whose
id matches; records with a different id are untouched. -/
def dbUpdate (store : TodoTable) (id : Nat) (u : UpdateTodoInput) (now : Nat) : TodoTable :=
  store.map (fun t => if t.id = id then mergeUpdate t u now else t)

/- Math.max(...todos.map(t => t.order), -1), the sentinel-floored maximum
used by create, update and updateOrder. -/
def maxOrderOf (todos : List Todo) : Rat :=
  todos.foldl (fun m t => max m t.order) (-1)

/- JavaScript String.prototype.toLowerCase, modelled character-wise. -/
def jsToLower (s : String) : String :=
  ⟨s.data.map Char.toLower⟩

/- JavaScript String.prototype.trim: strip leading and trailing
whitespace. -/
def jsTrim (s : String) : String :=
  ⟨((s.data.dropWhile Char.isWhitespace).reverse.dropWhile Char.isWhitespace).reverse⟩

namespace todoService

/- todoService.create (src/lib/services/todo-service.ts lines 25-39):
no validation of any field; order is Math.max(...orders, -1) + 1 over the
todos already in the status of the input; id and updatedAt come from the
clock (Date.now() / new Date()).  Returns the grown table and the record
that was persisted. -/
def create (store : TodoTable) (input : CreateTodoInput) (now : Nat) : TodoTable × Todo :=
  let todosInStatus := store.filter (fun t => decide (t.status = input.status))
  let maxOrder := maxOrderOf todosInStatus
  let newTodo : Todo :=
    { id := now
      title := input.title
      description := input.description
      status := input.status
      priority := input.priority
      tags := input.tags
      links := input.links
      comments := input.comments
      order := maxOrder + 1
      createdAt := input.createdAt
      updatedAt := now
      deadline := input.deadline }
  (store ++ [newTodo], newTodo)

/- todoService.update (src/lib/services/todo-service.ts lines 41-62):
throws if the id is absent; if updates.status is present and differs from
the stored status, updates.order is overwritten with
Math.max(...ordersInNewStatus, -1) + 1; then the merged patch (with a
fresh updatedAt) is written. -/
def update (store : TodoTable) (id : Nat) (updates : UpdateTodoInput) (now : Nat) :
    Except String TodoTable :=
  match dbGet store id with
  | none => .error "Todo not found"
  | some todo =>
    let updates' :=
      match updates.status with
      | some s =>
        if s ≠ todo.status then
          let todosInNewStatus := store.filter (fun t => decide (t.status = s))
          { updates with order := some (maxOrderOf todosInNewStatus + 1) }
        else updates
      | none => updates
    .ok (dbUpdate store id updates' now)

/- todoService.addTag (lines 86-99): normalizes with
tag.toLowerCase().trim(); throws if already present; otherwise appends. -/
def addTag (store : TodoTable) (id : Nat) (tag : String) (now : Nat) :
    Except String TodoTable :=
  match dbGet store id with
  | none => .error "Todo not found"
  | some todo =>
    let normalizedTag := jsTrim (jsToLower tag)
    if normalizedTag ∈ todo.tags then
      .error "Tag already exists"
    else
      .ok (dbUpdate store id { tags := some (todo.tags ++ [normalizedTag]) } now)

/- todoService.removeTag (lines 101-109). -/
def removeTag (store : TodoTable) (id : Nat) (tag : String) (now : Nat) :
    Except String TodoTable :=
  match dbGet store id with
  | none => .error "Todo not found"
  | some todo =>
    .ok (dbUpdate store id { tags := some (todo.tags.filter (fun t => decide (t ≠ tag))) } now)

/- todoService.addLink (lines 111-119): appends the link exactly as
given; no url normalization happens at this layer. -/
def addLink (store : TodoTable) (id : Nat) (link : Link) (now : Nat) :
    Except String TodoTable :=
  match dbGet store id with
  | none => .error "Todo not found"
  | some todo =>
    .ok (dbUpdate store id { links := some (todo.links ++ [link]) } now)

/- todoService.removeLink (lines 121-129): filter((_, i) => i !== index). -/
def removeLink (store : TodoTable) (id : Nat) (index : Nat) (now : Nat) :
    Except String TodoTable :=
  match dbGet store id with
  | none => .error "Todo not found"
  | some todo =>
    .ok (dbUpdate store id
      { links := some ((todo.links.enum.filter (fun p => decide (p.1 ≠ index))).map (·.2)) } now)

/- todoService.addComment (lines 131-142): comment id and createdAt are
both Date.now() / new Date(). -/
def addComment (store : TodoTable) (id : Nat) (text : String) (now : Nat) :
    Except String TodoTable :=
  match dbGet store id with
  | none => .error "Todo not found"
  | some todo =>
    .ok (dbUpdate store id
      { comments := some (todo.comments ++ [{ id := now, text := text, createdAt := now }]) } now)

/- todoService.removeComment (lines 144-152). -/
def removeComment (store : TodoTable) (id : Nat) (commentId : Nat) (now : Nat) :
    Except String TodoTable :=
  match dbGet store id with
  | none => .error "Todo not found"
  | some todo =>
    .ok (dbUpdate store id
      { comments := some (todo.comments.filter (fun c => decide (c.id ≠ commentId))) } now)

end todoService

/-
Drag-end controller, from handleDragEnd in src/components/ui/todo-board.tsx
(lines 138-311).  The handler reads the optimistic snapshot (filteredTodos)
to resolve the gesture and compute patches, and issues sequential
todoService.update calls against the backing table.  A failure of any call
is caught: the loop stops, an error toast is raised, and the optimistic
snapshot is resynchronized with the backing list (which keeps every patch
already committed — nothing is rolled back).  Storage failures are
injected through failAt: the n-th repository update call (0-based) throws.
-/

/- Outcome of a drag-end commit: the backing table afterwards (which the
live query resynchronizes the visible list to), and which toast fired. -/
structure DragEndResult where
  store : TodoTable
  successToast : Bool
  errorToast : Bool
  deriving DecidableEq

/- The order computation of todo-board.tsx lines 202-215: top drop gives
first order - 1, bottom drop gives last order + 1, middle drop gives the
midpoint of the two surrounding siblings of the snapshot. -/
def computeNewOrder (todosInNewStatus : List Todo) (overIndex : Nat) : Rat :=
  if overIndex = 0 then
    ((todosInNewStatus.head?).map Todo.order).getD 0 - 1
  else if overIndex = todosInNewStatus.length - 1 then
    ((todosInNewStatus.getLast?).map Todo.order).getD 0 + 1
  else
    (((todosInNewStatus.get? (overIndex - 1)).map Todo.order).getD 0 +
     ((todosInNewStatus.get? overIndex).map Todo.order).getD 0) / 2

/- The same-column shift loops of todo-board.tsx lines 246-285, as the
patch list the loop issues: moving down decrements indices
activeIndex+1 .. overIndex, moving up increments indices
overIndex .. activeIndex-1, in index order; each patch carries the order
read from the snapshot. -/
def shiftPatches (todosInStatus : List Todo) (activeIndex overIndex : Nat) :
    List (Nat × UpdateTodoInput) :=
  if activeIndex < overIndex then
    (List.range' (activeIndex + 1) (overIndex - activeIndex)).filterMap
      (fun i => (todosInStatus.get? i).map
        (fun t => (t.id, ({ order := some (t.order - 1) } : UpdateTodoInput))))
  else
    (List.range' overIndex (activeIndex - overIndex)).filterMap
      (fun i => (todosInStatus.get? i).map
        (fun t => (t.id, ({ order := some (t.order + 1) } : UpdateTodoInput))))

/- Sequential await todoService.update calls of the commit, with the call
counter k and injected failure position failAt.  The Bool is true when an
exception escaped into the catch block; the returned table is the backing
state at that moment — patches already written stay written. -/
def runUpdates (store : TodoTable) (patches : List (Nat × UpdateTodoInput)) (now : Nat)
    (failAt : Option Nat) (k : Nat) : TodoTable × Bool :=
  match patches with
  | [] => (store, false)
  | p :: rest =>
    if failAt = some k then (store, true)
    else
      match todoService.update store p.1 p.2 now with
      | .error _ => (store, true)
      | .ok store' => runUpdates store' rest now failAt (k + 1)

/- handleDragEnd for a drop on another todo card (todo-board.tsx lines
190-298): resolve active and over in the snapshot, compute the order from
the snapshot of the target column; a cross-column drop issues one update;
a same-column drop issues the shift patches followed by the final
placement of the dragged item. -/
def handleDropOnTodo (filtered : List Todo) (store : TodoTable) (activeId overId : Nat)
    (now : Nat) (failAt : Option Nat) : DragEndResult :=
  match filtered.find? (fun t => decide (t.id = activeId)) with
  | none => ⟨store, false, true⟩
  | some activeTodo =>
    match filtered.find? (fun t => decide (t.id = overId)) with
    | none => ⟨store, false, true⟩
    | some overTodo =>
      let newStatus := overTodo.status
      let todosInNewStatus := filtered.filter (fun t => decide (t.status = newStatus))
      let overIndex := todosInNewStatus.findIdx (fun t => decide (t.id = overId))
      let newOrder := computeNewOrder todosInNewStatus overIndex
      if activeTodo.status ≠ newStatus then
        match runUpdates store
            [(activeId, { status := some newStatus, order := some newOrder })] now failAt 0 with
        | (store', false) => ⟨store', true, false⟩
        | (store', true) => ⟨store', false, true⟩
      else
        let todosInStatus := filtered.filter (fun t => decide (t.status = activeTodo.status))
        let activeIndex := todosInStatus.findIdx (fun t => decide (t.id = activeId))
        if activeIndex = todosInStatus.length then ⟨store, false, true⟩
        else
          let patches := shiftPatches todosInStatus activeIndex overIndex ++
            [(activeId, ({ order := some newOrder } : UpdateTodoInput))]
          match runUpdates store patches now failAt 0 with
          | (store', false) => ⟨store', true, false⟩
          | (store', true) => ⟨store', false, true⟩

/- Specification-side fold for characterizing a partially failed commit:
apply at most k leading patches, stopping early at a repository error.
Used to state that a failed commit keeps exactly the committed head of
the patch list. -/
def applyFirst (store : TodoTable) (patches : List (Nat × UpdateTodoInput)) (now : Nat)
    (k : Nat) : TodoTable :=
  match k, patches with
  | 0, _ => store
  | _, [] => store
  | k' + 1, p :: rest =>
    match todoService.update store p.1 p.2 now with
    | .error _ => store
    | .ok store' => applyFirst store' rest now k'

/- JavaScript String.prototype.startsWith, as a character-list relation. -/
def jsStartsWith (s pre : String) : Bool :=
  pre.data.isPrefixOf s.data

namespace todoView

/- addLink from src/components/ui/todo-view.tsx (lines 184-199): empty
title or url is a no-op; the url is trimmed and given an https scheme
when it carries neither scheme, then handed to todoService.addLink. -/
def addLink (store : TodoTable) (todoId : Nat) (newLinkTitle newLinkUrl : String)
    (now : Nat) : Except String TodoTable :=
  if newLinkTitle = "" ∨ newLinkUrl = "" then .ok store
  else
    let url := jsTrim newLinkUrl
    let url :=
      if ¬ jsStartsWith url "http://" ∧ ¬ jsStartsWith url "https://" then
        "https://" ++ url
      else url
    todoService.addLink store todoId { title := newLinkTitle, url := url } now

end todoView

/- The raw values the dialog form holds before zod validation; status and
priority arrive as strings from the select widgets. -/
structure FormValues where
  title : String
  status : String
  priority : String

/- The five status literals of the zod enum. -/
def statusStrings : List String :=
  ["backlog", "in-progress", "blocked", "done", "canceled"]

/- The four priority literals of the zod enum. -/
def priorityStrings : List String :=
  ["low", "medium", "high", "urgent"]

/- formSchema from src/components/ui/todo-dialog.tsx lines 58-65:
z.string().min(1) on the title and z.enum on status and priority.  This
is the only validation in the create path; todoService.create itself
checks nothing. -/
def formSchemaAccepts (v : FormValues) : Bool :=
  decide (1 ≤ v.title.length) &&
    statusStrings.contains v.status &&
    priorityStrings.contains v.priority

/- A concrete todo with the given id, status and order; the remaining
fields take fixed harmless values.  Used by concrete scenarios. -/
def mkTodo (id : Nat) (status : Status) (order : Rat) : Todo :=
  { id := id
    title := "t"
    description := none
    status := status
    priority := Priority.medium
    tags := []
    links := []
    comments := []
    order := order
    createdAt := 0
    updatedAt := 0
    deadline := none }

/- A four-card backlog column snapshot with ids 1..4 and the given
orders, listed in snapshot (visual) order. -/
def snap4 (a b c d : Rat) : List Todo :=
  [mkTodo 1 Status.backlog a, mkTodo 2 Status.backlog b,
   mkTodo 3 Status.backlog c, mkTodo 4 Status.backlog d]

/- A three-card backlog column snapshot with ids 1..3. -/
def snap3 (a b c : Rat) : List Todo :=
  [mkTodo 1 Status.backlog a, mkTodo 2 Status.backlog b, mkTodo 3 Status.backlog c]

/- The persisted order of the record with the given id after a repository
call, when the call succeeded and the record exists. -/
def updatedOrder (r : Except String TodoTable) (id : Nat) : Option Rat :=
  match r with
  | .error _ => none
  | .ok st => (dbGet st id).map Todo.order

/- After a mutation at clock value now, the record carries updatedAt =
now, keeps its creation time, and the timestamp chain
createdAt ≤ previous updatedAt ≤ new updatedAt holds. -/
def timestampRefreshed (todo : Todo) (now : Nat) (store' : TodoTable) (id : Nat) : Prop :=
  ∃ t', dbGet store' id = some t' ∧ t'.updatedAt = now ∧ t'.createdAt = todo.createdAt ∧
    todo.updatedAt ≤ t'.updatedAt ∧ t'.createdAt ≤ todo.updatedAt

theorem mergeUpdate_id (t : Todo) (u : UpdateTodoInput) (now : Nat) :
    (mergeUpdate t u now).id = t.id := rfl

theorem dbGet_dbUpdate_self (store : TodoTable) (id : Nat) (u : UpdateTodoInput) (now : Nat) :
    dbGet (dbUpdate store id u now) id =
      (dbGet store id).map (fun t => mergeUpdate t u now) := by
  induction store with
  | nil => rfl
  | cons t rest ih =>
    by_cases h : t.id = id
    · simp only [dbGet, dbUpdate, List.map_cons]
      rw [if_pos h, List.find?_cons_of_pos, List.find?_cons_of_pos]
      · rfl
      · simpa using h
      · simpa [mergeUpdate_id] using h
    · simp only [dbGet, dbUpdate, List.map_cons]
      rw [if_neg h, List.find?_cons_of_neg, List.find?_cons_of_neg]
      · exact ih
      · simpa using h
      · simpa using h

theorem dbGet_dbUpdate_ne (store : TodoTable) (id j : Nat) (u : UpdateTodoInput) (now : Nat)
    (hne : j ≠ id) :
    dbGet (dbUpdate store id u now) j = dbGet store j := by
  induction store with
  | nil => rfl
  | cons t rest ih =>
    by_cases h : t.id = j
    · simp only [dbGet, dbUpdate, List.map_cons]
      rw [if_neg (by rw [h]; exact hne), List.find?_cons_of_pos, List.find?_cons_of_pos]
      · simpa using h
      · simpa using h
    · simp only [dbGet, dbUpdate, List.map_cons]
      by_cases h2 : t.id = id
      · rw [if_pos h2, List.find?_cons_of_neg, List.find?_cons_of_neg]
        · exact ih
        · simpa using h
        · simpa [mergeUpdate_id] using h
      · rw [if_neg h2, List.find?_cons_of_neg, List.find?_cons_of_neg]
        · exact ih
        · simpa using h
        · simpa using h

theorem dbUpdate_getElem?_ne (store : TodoTable) (id : Nat) (u : UpdateTodoInput) (now : Nat)
    (i : Nat) (t : Todo) (hi : store[i]? = some t) (hne : t.id ≠ id) :
    (dbUpdate store id u now)[i]? = some t := by
  simp only [dbUpdate, List.getElem?_map, hi, Option.map_some']
  rw [if_neg hne]

theorem foldlMax_init_le (l : List Todo) (init : Rat) :
    init ≤ l.foldl (fun m t => max m t.order) init := by
  induction l generalizing init with
  | nil => exact le_refl _
  | cons t rest ih =>
    exact le_trans (le_max_left _ _) (ih (max init t.order))

theorem le_foldlMax_of_mem {l : List Todo} {t : Todo} (ht : t ∈ l) (init : Rat) :
    t.order ≤ l.foldl (fun m x => max m x.order) init := by
  induction l generalizing init with
  | nil => cases ht
  | cons a rest ih =>
    rcases List.mem_cons.mp ht with h | h
    · subst h
      exact le_trans (le_max_right _ _) (foldlMax_init_le rest _)
    · exact ih h _

theorem le_maxOrderOf {l : List Todo} {t : Todo} (ht : t ∈ l) : t.order ≤ maxOrderOf l :=
  le_foldlMax_of_mem ht _

theorem runUpdates_failAt (patches : List (Nat × UpdateTodoInput)) :
    ∀ (store : TodoTable) (now f j : Nat), j ≤ f → f - j < patches.length →
      runUpdates store patches now (some f) j = (applyFirst store patches now (f - j), true) := by
  induction patches with
  | nil =>
    intro store now f j _ h
    simp at h
  | cons p rest ih =>
    intro store now f j hj h
    by_cases hfj : f = j
    · subst hfj
      simp [runUpdates, applyFirst, Nat.sub_self]
    · have hlt : j < f := lt_of_le_of_ne hj (fun e => hfj e.symm)
      have hne : (some f : Option Nat) ≠ some j := by
        intro e
        exact hfj (Option.some.inj e)
      obtain ⟨m, hm⟩ : ∃ m, f - j = m + 1 := ⟨f - j - 1, by omega⟩
      simp only [runUpdates, if_neg hne, hm, applyFirst]
      cases h' : todoService.update store p.1 p.2 now with
      | error e => rfl
      | ok store' =>
        have hj' : j + 1 ≤ f := hlt
        have hm' : f - (j + 1) = m := by omega
        have hlen : f - (j + 1) < rest.length := by
          simp only [List.length_cons] at h
          omega
        dsimp only
        rw [ih store' now f (j + 1) hj' hlen, hm']

/-- Claim C5, counterexample.  The claim says the created order is
max(order of todos in the column) + 1, or 0 when the column is empty.
With a backlog column whose only todo has order -2, the code computes
Math.max(-2, -1) + 1 = 0, while the plain maximum plus one is -1: the
sentinel -1 inside Math.max floors the result. -/
theorem create_order_clamped_counterexample :
    ((todoService.create [mkTodo 1 Status.backlog (-2)]
        { title := "x", status := Status.backlog, priority := Priority.low } 5).2).order = 0 ∧
      ¬ ((todoService.create [mkTodo 1 Status.backlog (-2)]
        { title := "x", status := Status.backlog, priority := Priority.low } 5).2).order =
          -2 + 1 := by
  constructor
  · show max (-1 : Rat) (-2) + 1 = 0
    norm_num
  · show ¬ max (-1 : Rat) (-2) + 1 = -2 + 1
    norm_num

/-- Claim C5 (amended): the created order is max(orders in the target
column together with the sentinel -1) + 1; hence it is strictly greater
than every order already in the column, and it is 0 when the column is
empty (the two situations agree whenever the column maximum is at least
-1, which covers every claim example). -/
theorem create_order_max_floor (store : TodoTable) (input : CreateTodoInput) (now : Nat) :
    ((todoService.create store input now).2).order =
      maxOrderOf (store.filter (fun t => decide (t.status = input.status))) + 1 ∧
    (∀ t ∈ store, t.status = input.status →
      t.order < ((todoService.create store input now).2).order) ∧
    (store.filter (fun t => decide (t.status = input.status)) = [] →
      ((todoService.create store input now).2).order = 0) := by
  refine ⟨rfl, ?_, ?_⟩
  · intro t ht hstat
    have hmem : t ∈ store.filter (fun x => decide (x.status = input.status)) := by
      simp [List.mem_filter, ht, hstat]
    have hle := le_maxOrderOf hmem
    show t.order < maxOrderOf _ + 1
    linarith
  · intro hemp
    show maxOrderOf _ + 1 = 0
    rw [hemp]
    norm_num [maxOrderOf]

/-- Witness for create_order_max_floor: a one-element backlog column and
an empty column, with every hypothesis discharged concretely. -/
theorem create_order_max_floor_witness :
    (mkTodo 1 Status.backlog 4).order <
      ((todoService.create [mkTodo 1 Status.backlog 4]
        { title := "w", status := Status.backlog, priority := Priority.low } 9).2).order ∧
    ((todoService.create []
        { title := "w", status := Status.backlog, priority := Priority.low } 9).2).order = 0 :=
  ⟨(create_order_max_floor [mkTodo 1 Status.backlog 4]
      { title := "w", status := Status.backlog, priority := Priority.low } 9).2.1
      (mkTodo 1 Status.backlog 4) (by decide) (by decide),
   (create_order_max_floor []
      { title := "w", status := Status.backlog, priority := Priority.low } 9).2.2 rfl⟩

/-- Claim C3, counterexample.  The claim says a caller-supplied order
takes precedence over the recomputed rank when the status changes.  In
the code the branch updates.order = maxOrder + 1 runs unconditionally
whenever the status differs, overwriting the supplied value: updating the
only backlog todo to in-progress with explicit order 5 persists order 0
(the recomputed end-of-column rank), not 5. -/
theorem update_overrides_caller_order_counterexample :
    updatedOrder (todoService.update [mkTodo 1 Status.backlog 0] 1
      { status := some Status.inProgress, order := some 5 } 9) 1 = some 0 ∧
    ¬ updatedOrder (todoService.update [mkTodo 1 Status.backlog 0] 1
      { status := some Status.inProgress, order := some 5 } 9) 1 = some 5 := by
  constructor
  · show some ((-1 : Rat) + 1) = some 0
    norm_num
  · show ¬ some ((-1 : Rat) + 1) = some 5
    norm_num

/-- Claim C3 (amended): for update(id, u) on an existing todo, if
u.status is present and differs from the stored status, the persisted
order is always recomputed as max(orders in the new status column
together with the sentinel -1) + 1, regardless of any order value the
caller supplied; the caller value is honored only when the status is
absent or unchanged. -/
theorem update_statusChange_recomputes_order (store : TodoTable) (id : Nat)
    (u : UpdateTodoInput) (now : Nat) (todo : Todo) (s : Status)
    (hget : dbGet store id = some todo) (hs : u.status = some s) (hne : s ≠ todo.status) :
    ∃ store', todoService.update store id u now = .ok store' ∧
      ∃ t', dbGet store' id = some t' ∧ t'.status = s ∧
        t'.order = maxOrderOf (store.filter (fun t => decide (t.status = s))) + 1 := by
  have hrun : todoService.update store id u now =
      .ok (dbUpdate store id
        { u with order := some (maxOrderOf (store.filter (fun t => decide (t.status = s))) + 1) }
        now) := by
    unfold todoService.update
    rw [hget]
    dsimp only
    rw [hs]
    dsimp only
    rw [if_pos hne]
  refine ⟨_, hrun, ?_⟩
  rw [dbGet_dbUpdate_self, hget]
  refine ⟨_, rfl, ?_, ?_⟩
  · simp [mergeUpdate, hs]
  · simp [mergeUpdate]

/-- Witness for update_statusChange_recomputes_order: a concrete store,
a status-changing update carrying an explicit order 99. -/
theorem update_statusChange_recomputes_order_witness :
    ∃ store', todoService.update [mkTodo 1 Status.backlog 0] 1
        { status := some Status.inProgress, order := some 99 } 4 = .ok store' ∧
      ∃ t', dbGet store' 1 = some t' ∧ t'.status = Status.inProgress ∧
        t'.order = maxOrderOf ([mkTodo 1 Status.backlog 0].filter
          (fun t => decide (t.status = Status.inProgress))) + 1 :=
  update_statusChange_recomputes_order [mkTodo 1 Status.backlog 0] 1
    { status := some Status.inProgress, order := some 99 } 4
    (mkTodo 1 Status.backlog 0) Status.inProgress rfl rfl (by decide)

/-- Claim C10: for every update(id, u) on an existing todo whose u.status
is absent or equal to the stored status, the call succeeds, every stored
record with a different id is left in place unchanged, and the updated
record agrees with the previous one on id, createdAt, status, and every
field not named in u; updatedAt is refreshed to the clock, the sole
exception. -/
theorem update_frame (store : TodoTable) (id : Nat) (u : UpdateTodoInput) (now : Nat)
    (todo : Todo) (hget : dbGet store id = some todo)
    (hs : u.status = none ∨ u.status = some todo.status) :
    ∃ store', todoService.update store id u now = .ok store' ∧
      (∀ i : Nat, ∀ t : Todo, store[i]? = some t → t.id ≠ id → store'[i]? = some t) ∧
      ∃ t', dbGet store' id = some t' ∧
        t'.id = todo.id ∧ t'.createdAt = todo.createdAt ∧ t'.updatedAt = now ∧
        t'.status = todo.status ∧
        (u.title = none → t'.title = todo.title) ∧
        (u.description = none → t'.description = todo.description) ∧
        (u.priority = none → t'.priority = todo.priority) ∧
        (u.tags = none → t'.tags = todo.tags) ∧
        (u.links = none → t'.links = todo.links) ∧
        (u.comments = none → t'.comments = todo.comments) ∧
        (u.order = none → t'.order = todo.order) ∧
        (u.deadline = none → t'.deadline = todo.deadline) := by
  have hrun : todoService.update store id u now = .ok (dbUpdate store id u now) := by
    unfold todoService.update
    rw [hget]
    dsimp only
    rcases hs with hs | hs
    · rw [hs]
    · rw [hs]
      dsimp only
      rw [if_neg (by simp)]
  refine ⟨_, hrun, ?_, ?_⟩
  · intro i t hi hne
    exact dbUpdate_getElem?_ne store id u now i t hi hne
  · rw [dbGet_dbUpdate_self, hget]
    refine ⟨_, rfl, rfl, rfl, rfl, ?_, ?_, ?_, ?_, ?_, ?_, ?_, ?_, ?_⟩
    · rcases hs with hs | hs <;> simp [mergeUpdate, hs]
    · intro h; simp [mergeUpdate, h]
    · intro h; simp [mergeUpdate, h]
    · intro h; simp [mergeUpdate, h]
    · intro h; simp [mergeUpdate, h]
    · intro h; simp [mergeUpdate, h]
    · intro h; simp [mergeUpdate, h]
    · intro h; simp [mergeUpdate, h]
    · intro h; simp [mergeUpdate, h]

/-- Witness for update_frame: a two-record store, a title-only update of
record 1; record 2 sits at position 1 and keeps its id 2 ≠ 1. -/
theorem update_frame_witness :
    ∃ store', todoService.update [mkTodo 1 Status.backlog 0, mkTodo 2 Status.done 1] 1
        { title := some "new" } 6 = .ok store' ∧
      (∀ i : Nat, ∀ t : Todo,
        [mkTodo 1 Status.backlog 0, mkTodo 2 Status.done 1][i]? = some t → t.id ≠ 1 →
          store'[i]? = some t) ∧
      ∃ t', dbGet store' 1 = some t' ∧
        t'.id = (mkTodo 1 Status.backlog 0).id ∧
        t'.createdAt = (mkTodo 1 Status.backlog 0).createdAt ∧ t'.updatedAt = 6 ∧
        t'.status = (mkTodo 1 Status.backlog 0).status ∧
        (({ title := some "new" } : UpdateTodoInput).title = none →
          t'.title = (mkTodo 1 Status.backlog 0).title) ∧
        (({ title := some "new" } : UpdateTodoInput).description = none →
          t'.description = (mkTodo 1 Status.backlog 0).description) ∧
        (({ title := some "new" } : UpdateTodoInput).priority = none →
          t'.priority = (mkTodo 1 Status.backlog 0).priority) ∧
        (({ title := some "new" } : UpdateTodoInput).tags = none →
          t'.tags = (mkTodo 1 Status.backlog 0).tags) ∧
        (({ title := some "new" } : UpdateTodoInput).links = none →
          t'.links = (mkTodo 1 Status.backlog 0).links) ∧
        (({ title := some "new" } : UpdateTodoInput).comments = none →
          t'.comments = (mkTodo 1 Status.backlog 0).comments) ∧
        (({ title := some "new" } : UpdateTodoInput).order = none →
          t'.order = (mkTodo 1 Status.backlog 0).order) ∧
        (({ title := some "new" } : UpdateTodoInput).deadline = none →
          t'.deadline = (mkTodo 1 Status.backlog 0).deadline) :=
  update_frame [mkTodo 1 Status.backlog 0, mkTodo 2 Status.done 1] 1
    { title := some "new" } 6 (mkTodo 1 Status.backlog 0) rfl (Or.inl rfl)

theorem timestampRefreshed_dbUpdate (store : TodoTable) (id : Nat) (u : UpdateTodoInput)
    (now : Nat) (todo : Todo) (hget : dbGet store id = some todo)
    (hc : todo.createdAt ≤ todo.updatedAt) (hn : todo.updatedAt ≤ now) :
    timestampRefreshed todo now (dbUpdate store id u now) id := by
  unfold timestampRefreshed
  refine ⟨mergeUpdate todo u now, ?_, rfl, rfl, hn, hc⟩
  rw [dbGet_dbUpdate_self, hget]
  rfl

/-- Claim C9: every mutation of a stored todo (update, addTag, removeTag,
addLink, removeLink, addComment, removeComment) that succeeds writes
updatedAt = now (the current clock) and preserves createdAt, so whenever
the clock has not gone backwards (now at least the previous updatedAt)
and the record satisfied createdAt ≤ updatedAt before, the new record
satisfies updatedAt ≥ previous updatedAt ≥ createdAt. -/
theorem mutations_refresh_updatedAt (store : TodoTable) (id : Nat) (todo : Todo) (now : Nat)
    (hget : dbGet store id = some todo) (hc : todo.createdAt ≤ todo.updatedAt)
    (hn : todo.updatedAt ≤ now) :
    (∀ u store', todoService.update store id u now = .ok store' →
      timestampRefreshed todo now store' id) ∧
    (∀ tag store', todoService.addTag store id tag now = .ok store' →
      timestampRefreshed todo now store' id) ∧
    (∀ tag store', todoService.removeTag store id tag now = .ok store' →
      timestampRefreshed todo now store' id) ∧
    (∀ link store', todoService.addLink store id link now = .ok store' →
      timestampRefreshed todo now store' id) ∧
    (∀ index store', todoService.removeLink store id index now = .ok store' →
      timestampRefreshed todo now store' id) ∧
    (∀ text store', todoService.addComment store id text now = .ok store' →
      timestampRefreshed todo now store' id) ∧
    (∀ commentId store', todoService.removeComment store id commentId now = .ok store' →
      timestampRefreshed todo now store' id) := by
  refine ⟨?_, ?_, ?_, ?_, ?_, ?_, ?_⟩
  · intro u store' h
    unfold todoService.update at h
    rw [hget] at h
    dsimp only at h
    injection h with h
    rw [← h]
    exact timestampRefreshed_dbUpdate store id _ now todo hget hc hn
  · intro tag store' h
    unfold todoService.addTag at h
    rw [hget] at h
    dsimp only at h
    split at h
    · exact Except.noConfusion h
    · injection h with h
      rw [← h]
      exact timestampRefreshed_dbUpdate store id _ now todo hget hc hn
  · intro tag store' h
    unfold todoService.removeTag at h
    rw [hget] at h
    dsimp only at h
    injection h with h
    rw [← h]
    exact timestampRefreshed_dbUpdate store id _ now todo hget hc hn
  · intro link store' h
    unfold todoService.addLink at h
    rw [hget] at h
    dsimp only at h
    injection h with h
    rw [← h]
    exact timestampRefreshed_dbUpdate store id _ now todo hget hc hn
  · intro index store' h
    unfold todoService.removeLink at h
    rw [hget] at h
    dsimp only at h
    injection h with h
    rw [← h]
    exact timestampRefreshed_dbUpdate store id _ now todo hget hc hn
  · intro text store' h
    unfold todoService.addComment at h
    rw [hget] at h
    dsimp only at h
    injection h with h
    rw [← h]
    exact timestampRefreshed_dbUpdate store id _ now todo hget hc hn
  · intro commentId store' h
    unfold todoService.removeComment at h
    rw [hget] at h
    dsimp only at h
    injection h with h
    rw [← h]
    exact timestampRefreshed_dbUpdate store id _ now todo hget hc hn

/-- Witness for mutations_refresh_updatedAt: adding tag "X" to a concrete
record at clock 5 refreshes its updatedAt. -/
theorem mutations_refresh_updatedAt_witness :
    timestampRefreshed (mkTodo 1 Status.backlog 0) 5
      (dbUpdate [mkTodo 1 Status.backlog 0] 1 { tags := some ["x"] } 5) 1 :=
  (mutations_refresh_updatedAt [mkTodo 1 Status.backlog 0] 1 (mkTodo 1 Status.backlog 0) 5
    rfl (by decide) (by decide)).2.1 "X"
    (dbUpdate [mkTodo 1 Status.backlog 0] 1 { tags := some ["x"] } 5) rfl

/-- Claim C6: addTag(id, tag) on an existing todo normalizes the tag
(lower-cased then trimmed) before storage; if the stored tags already
contain the normalized tag the call is rejected with an error and no
table is produced (the tag is never stored twice); otherwise exactly the
normalized tag is appended, and afterwards it occurs exactly once. -/
theorem addTag_dedup_normalize (store : TodoTable) (id : Nat) (tag : String) (now : Nat)
    (todo : Todo) (hget : dbGet store id = some todo) :
    (jsTrim (jsToLower tag) ∈ todo.tags →
      todoService.addTag store id tag now = .error "Tag already exists") ∧
    (jsTrim (jsToLower tag) ∉ todo.tags →
      ∃ store', todoService.addTag store id tag now = .ok store' ∧
        ∃ t', dbGet store' id = some t' ∧
          t'.tags = todo.tags ++ [jsTrim (jsToLower tag)] ∧
          t'.tags.count (jsTrim (jsToLower tag)) = 1) := by
  constructor
  · intro hmem
    unfold todoService.addTag
    rw [hget]
    dsimp only
    rw [if_pos hmem]
  · intro hmem
    have hrun : todoService.addTag store id tag now =
        .ok (dbUpdate store id { tags := some (todo.tags ++ [jsTrim (jsToLower tag)]) } now) := by
      unfold todoService.addTag
      rw [hget]
      dsimp only
      rw [if_neg hmem]
    refine ⟨_, hrun, ?_⟩
    rw [dbGet_dbUpdate_self, hget]
    refine ⟨_, rfl, ?_, ?_⟩
    · simp [mergeUpdate]
    · have hcount : todo.tags.count (jsTrim (jsToLower tag)) = 0 :=
        List.count_eq_zero.mpr hmem
      simp [mergeUpdate, List.count_append, hcount]

/-- Witness for addTag_dedup_normalize: a todo already tagged "foo"
rejects tag "  FOO " (same after normalization), and a fresh tag "Bar"
is appended once as "bar". -/
theorem addTag_dedup_normalize_witness :
    todoService.addTag [{ mkTodo 1 Status.backlog 0 with tags := ["foo"] }] 1 "  FOO " 5 =
      .error "Tag already exists" ∧
    ∃ store', todoService.addTag [{ mkTodo 1 Status.backlog 0 with tags := ["foo"] }] 1
        "Bar" 5 = .ok store' ∧
      ∃ t', dbGet store' 1 = some t' ∧
        t'.tags = ["foo"] ++ [jsTrim (jsToLower "Bar")] ∧
        t'.tags.count (jsTrim (jsToLower "Bar")) = 1 :=
  ⟨(addTag_dedup_normalize [{ mkTodo 1 Status.backlog 0 with tags := ["foo"] }] 1 "  FOO " 5
      { mkTodo 1 Status.backlog 0 with tags := ["foo"] } rfl).1 (by decide),
   (addTag_dedup_normalize [{ mkTodo 1 Status.backlog 0 with tags := ["foo"] }] 1 "Bar" 5
      { mkTodo 1 Status.backlog 0 with tags := ["foo"] } rfl).2 (by decide)⟩

theorem jsStartsWith_append (pre s : String) : jsStartsWith (pre ++ s) pre = true := by
  simp [jsStartsWith, String.data_append, List.isPrefixOf_iff_prefix]

theorem addLink_ok (store : TodoTable) (id : Nat) (link : Link) (now : Nat) (todo : Todo)
    (hget : dbGet store id = some todo) :
    todoService.addLink store id link now =
      .ok (dbUpdate store id { links := some (todo.links ++ [link]) } now) := by
  unfold todoService.addLink
  rw [hget]

/-- Claim C7: every link added through the add-link handler is persisted
with an explicit scheme: the url is trimmed, and whenever the trimmed url
starts with neither http nor https, the string https followed by the
separator is prepended before todoService.addLink persists it; the
stored url therefore always starts with one of the two schemes, and the
url example.com is stored as https followed by example.com. -/
theorem addLink_normalizes_url (store : TodoTable) (todoId : Nat) (title u : String)
    (now : Nat) (todo : Todo) (hget : dbGet store todoId = some todo)
    (ht : title ≠ "") (hu : u ≠ "") :
    ∃ store', todoView.addLink store todoId title u now = .ok store' ∧
      ∃ t', dbGet store' todoId = some t' ∧
        ∃ l : Link, t'.links = todo.links ++ [l] ∧
          (jsStartsWith l.url "http://" = true ∨ jsStartsWith l.url "https://" = true) ∧
          ((¬ jsStartsWith (jsTrim u) "http://" = true ∧
            ¬ jsStartsWith (jsTrim u) "https://" = true) →
            l.url = "https://" ++ jsTrim u) := by
  unfold todoView.addLink
  rw [if_neg (by
    intro h
    rcases h with h | h
    · exact ht h
    · exact hu h)]
  dsimp only
  by_cases hcond : ¬ jsStartsWith (jsTrim u) "http://" = true ∧
      ¬ jsStartsWith (jsTrim u) "https://" = true
  · rw [if_pos hcond]
    rw [addLink_ok store todoId _ now todo hget]
    refine ⟨_, rfl, ?_⟩
    rw [dbGet_dbUpdate_self, hget]
    refine ⟨_, rfl, ⟨{ title := title, url := "https://" ++ jsTrim u }, ?_, ?_, ?_⟩⟩
    · simp [mergeUpdate]
    · exact Or.inr (jsStartsWith_append "https://" (jsTrim u))
    · intro _
      rfl
  · rw [if_neg hcond]
    rw [addLink_ok store todoId _ now todo hget]
    refine ⟨_, rfl, ?_⟩
    rw [dbGet_dbUpdate_self, hget]
    refine ⟨_, rfl, ⟨{ title := title, url := jsTrim u }, ?_, ?_, ?_⟩⟩
    · simp [mergeUpdate]
    · rcases not_and_or.mp hcond with h | h
      · exact Or.inl (not_not.mp h)
      · exact Or.inr (not_not.mp h)
    · intro h
      exact absurd h hcond

/-- Witness for addLink_normalizes_url: adding the url example.com to a
concrete todo, with the resulting table computed explicitly: the stored
url is https followed by example.com. -/
theorem addLink_normalizes_url_witness :
    (∃ store', todoView.addLink [mkTodo 1 Status.backlog 0] 1 "Example" "example.com" 3 =
        .ok store' ∧
      ∃ t', dbGet store' 1 = some t' ∧
        ∃ l : Link, t'.links = (mkTodo 1 Status.backlog 0).links ++ [l] ∧
          (jsStartsWith l.url "http://" = true ∨ jsStartsWith l.url "https://" = true) ∧
          ((¬ jsStartsWith (jsTrim "example.com") "http://" = true ∧
            ¬ jsStartsWith (jsTrim "example.com") "https://" = true) →
            l.url = "https://" ++ jsTrim "example.com")) ∧
    todoView.addLink [mkTodo 1 Status.backlog 0] 1 "Example" "example.com" 3 =
      .ok [{ mkTodo 1 Status.backlog 0 with
              links := [{ title := "Example", url := "https://example.com" }],
              updatedAt := 3 }] :=
  ⟨addLink_normalizes_url [mkTodo 1 Status.backlog 0] 1 "Example" "example.com" 3
      (mkTodo 1 Status.backlog 0) rfl (by decide) (by decide),
   rfl⟩

/-- Claim C8, counterexample.  The claim says create fails with a
ValidationError and persists nothing when the title is empty.
todoService.create has no failure path at all: called with an empty
title it persists the record (the table grows by one and the stored
title is the empty string). -/
theorem create_empty_title_persists :
    ((todoService.create []
        { title := "", status := Status.backlog, priority := Priority.low } 4).1).length = 1 ∧
    ((todoService.create []
        { title := "", status := Status.backlog, priority := Priority.low } 4).2).title = "" :=
  ⟨rfl, rfl⟩

theorem one_le_length_iff_ne_empty (s : String) : 1 ≤ s.length ↔ s ≠ "" := by
  rw [String.length, Nat.one_le_iff_ne_zero, ne_eq, List.length_eq_zero]
  constructor
  · intro h he
    subst he
    exact h rfl
  · intro h he
    exact h (String.ext he)

/-- Claim C8 (amended): todoService.create itself performs no validation
and never fails — every call appends exactly one record to the table.
The empty-title and fixed-status checks live in the dialog zod
formSchema, which accepts a form value exactly when the title is
non-empty and the status and priority strings belong to their fixed
enumerations; it is this synchronous form validation, not create, that
rejects malformed input. -/
theorem create_accepts_formSchema_rejects :
    (∀ store input now,
      (todoService.create store input now).1 =
        store ++ [(todoService.create store input now).2] ∧
      ((todoService.create store input now).1).length = store.length + 1) ∧
    (∀ v : FormValues, formSchemaAccepts v = true ↔
      (v.title ≠ "" ∧ v.status ∈ statusStrings ∧ v.priority ∈ priorityStrings)) := by
  constructor
  · intro store input now
    exact ⟨rfl, by simp [todoService.create]⟩
  · intro v
    unfold formSchemaAccepts
    rw [Bool.and_eq_true, Bool.and_eq_true, decide_eq_true_iff]
    rw [one_le_length_iff_ne_empty]
    simp [and_assoc]

/-- Witness for create_accepts_formSchema_rejects: one concrete create
call and one concrete accepted form value. -/
theorem create_accepts_formSchema_rejects_witness :
    ((todoService.create [mkTodo 1 Status.backlog 0]
        { title := "a", status := Status.done, priority := Priority.low } 7).1 =
      [mkTodo 1 Status.backlog 0] ++
        [(todoService.create [mkTodo 1 Status.backlog 0]
          { title := "a", status := Status.done, priority := Priority.low } 7).2] ∧
      ((todoService.create [mkTodo 1 Status.backlog 0]
        { title := "a", status := Status.done, priority := Priority.low } 7).1).length =
        [mkTodo 1 Status.backlog 0].length + 1) ∧
    (formSchemaAccepts { title := "task", status := "done", priority := "low" } = true ↔
      (({ title := "task", status := "done", priority := "low" } : FormValues).title ≠ "" ∧
        ({ title := "task", status := "done", priority := "low" } : FormValues).status ∈
          statusStrings ∧
        ({ title := "task", status := "done", priority := "low" } : FormValues).priority ∈
          priorityStrings)) :=
  ⟨create_accepts_formSchema_rejects.1 [mkTodo 1 Status.backlog 0]
      { title := "a", status := Status.done, priority := Priority.low } 7,
   create_accepts_formSchema_rejects.2 { title := "task", status := "done", priority := "low" }⟩

theorem dropDown_snap4_eval (a b c d : Rat) (now : Nat) :
    handleDropOnTodo (snap4 a b c d) (snap4 a b c d) 1 3 now none =
      ⟨[{ mkTodo 1 Status.backlog a with order := (b + c) / 2, updatedAt := now },
        { mkTodo 2 Status.backlog b with order := b - 1, updatedAt := now },
        { mkTodo 3 Status.backlog c with order := c - 1, updatedAt := now },
        mkTodo 4 Status.backlog d], true, false⟩ := rfl

theorem dropDown_snap4_failAt1_eval (a b c d : Rat) (now : Nat) :
    handleDropOnTodo (snap4 a b c d) (snap4 a b c d) 1 3 now (some 1) =
      ⟨[mkTodo 1 Status.backlog a,
        { mkTodo 2 Status.backlog b with order := b - 1, updatedAt := now },
        mkTodo 3 Status.backlog c, mkTodo 4 Status.backlog d], false, true⟩ := rfl

theorem dropTop_snap3_eval (a b c : Rat) (now : Nat) :
    handleDropOnTodo (snap3 a b c) (snap3 a b c) 3 1 now none =
      ⟨[{ mkTodo 1 Status.backlog a with order := a + 1, updatedAt := now },
        { mkTodo 2 Status.backlog b with order := b + 1, updatedAt := now },
        { mkTodo 3 Status.backlog c with order := a - 1, updatedAt := now }], true, false⟩ := rfl

/-- Claim C1, counterexample.  Siblings at orders 0,1,2,3; the card at
index 0 is dropped on index 2.  The shifted siblings end at orders 0 and
1 and the post-shift neighbors of the drop position hold orders 1 and 3,
so the claimed post-shift midpoint is (1 + 3) / 2 = 2; the code persists
3 / 2, the midpoint of the PRE-shift snapshot orders 1 and 2, computed
before the shifts run. -/
theorem sameColumn_postShift_midpoint_counterexample :
    ((handleDropOnTodo (snap4 0 1 2 3) (snap4 0 1 2 3) 1 3 7 none).store.map Todo.order =
      [3 / 2, 0, 1, 3]) ∧
    ¬ ((3 : Rat) / 2 = (1 + 3) / 2) := by
  constructor
  · rw [dropDown_snap4_eval]
    norm_num [mkTodo]
  · norm_num

/-- Claim C1 (amended): for a same-column drag of the card at index 0
dropped on the card at index 2 among four ascending same-column
siblings, the siblings at indices 1 and 2 are each decremented by 1,
applied in index order, and the dragged card's final order is the
midpoint of the two siblings surrounding the drop position in the
PRE-shift snapshot, (b + c) / 2 — not the midpoint of the post-shift
sibling ordering. -/
theorem sameColumn_shift_preShift_midpoint (a b c d : Rat) (now : Nat)
    (h1 : a < b) (h2 : b < c) (h3 : c < d) :
    handleDropOnTodo (snap4 a b c d) (snap4 a b c d) 1 3 now none =
      ⟨[{ mkTodo 1 Status.backlog a with order := (b + c) / 2, updatedAt := now },
        { mkTodo 2 Status.backlog b with order := b - 1, updatedAt := now },
        { mkTodo 3 Status.backlog c with order := c - 1, updatedAt := now },
        mkTodo 4 Status.backlog d], true, false⟩ :=
  dropDown_snap4_eval a b c d now

/-- Witness for sameColumn_shift_preShift_midpoint at orders 0,1,2,3. -/
theorem sameColumn_shift_preShift_midpoint_witness :
    handleDropOnTodo (snap4 0 1 2 3) (snap4 0 1 2 3) 1 3 11 none =
      ⟨[{ mkTodo 1 Status.backlog 0 with order := (1 + 2) / 2, updatedAt := 11 },
        { mkTodo 2 Status.backlog 1 with order := 1 - 1, updatedAt := 11 },
        { mkTodo 3 Status.backlog 2 with order := 2 - 1, updatedAt := 11 },
        mkTodo 4 Status.backlog 3], true, false⟩ :=
  sameColumn_shift_preShift_midpoint 0 1 2 3 11 (by norm_num) (by norm_num) (by norm_num)

/-- Claim C4, counterexample.  Backlog orders 0,1,2; the third card is
dropped on the first.  The dragged card does get order -1, but the other
two are not unaffected: the move-up loop increments each of them, so
their persisted orders become 1 and 2, not 0 and 1. -/
theorem dropOnFirst_affects_others_counterexample :
    ((handleDropOnTodo (snap3 0 1 2) (snap3 0 1 2) 3 1 6 none).store.map Todo.order =
      [1, 2, -1]) ∧
    ¬ ((1 : Rat) = 0) := by
  constructor
  · rw [dropTop_snap3_eval]
    norm_num [mkTodo]
  · norm_num

/-- Claim C4 (amended): dropping the third of three ascending same-column
cards onto the first persists order a - 1 for the dragged card (-1 for
orders 0,1,2), and the move-up loop increments the other two cards by 1
each (orders a + 1 and b + 1), preserving their relative order. -/
theorem dropOnFirst_order_minus_one (a b c : Rat) (now : Nat)
    (h1 : a < b) (h2 : b < c) :
    handleDropOnTodo (snap3 a b c) (snap3 a b c) 3 1 now none =
      ⟨[{ mkTodo 1 Status.backlog a with order := a + 1, updatedAt := now },
        { mkTodo 2 Status.backlog b with order := b + 1, updatedAt := now },
        { mkTodo 3 Status.backlog c with order := a - 1, updatedAt := now }], true, false⟩ :=
  dropTop_snap3_eval a b c now

/-- Witness for dropOnFirst_order_minus_one at orders 0,1,2. -/
theorem dropOnFirst_order_minus_one_witness :
    handleDropOnTodo (snap3 0 1 2) (snap3 0 1 2) 3 1 8 none =
      ⟨[{ mkTodo 1 Status.backlog 0 with order := 0 + 1, updatedAt := 8 },
        { mkTodo 2 Status.backlog 1 with order := 1 + 1, updatedAt := 8 },
        { mkTodo 3 Status.backlog 2 with order := 0 - 1, updatedAt := 8 }], true, false⟩ :=
  dropOnFirst_order_minus_one 0 1 2 8 (by norm_num) (by norm_num)

/-- Claim C2, counterexample.  In the same-column scenario with orders
0,1,2,3, the second repository update of the commit fails.  The handler
does surface the failure notification, but the backing list it
resynchronizes to is not the pre-gesture state: the first shift (card 2
decremented to order 0) was already committed and is not rolled back. -/
theorem commit_failure_not_pregesture_counterexample :
    (handleDropOnTodo (snap4 0 1 2 3) (snap4 0 1 2 3) 1 3 9 (some 1)).errorToast = true ∧
    ¬ (handleDropOnTodo (snap4 0 1 2 3) (snap4 0 1 2 3) 1 3 9 (some 1)).store =
      snap4 0 1 2 3 := by
  constructor
  · rw [dropDown_snap4_failAt1_eval]
  · rw [dropDown_snap4_failAt1_eval]
    intro h
    simp [snap4, mkTodo, Todo.mk.injEq] at h

/-- Claim C2 (amended): when the f-th repository update of a drag-end
commit fails, the commit stops with a failure notification and the
backing list — which the controller resynchronizes the visible list to —
retains exactly the successfully committed head of the patch sequence;
nothing is rolled back, so the observable list equals the pre-gesture
state only when the failure hit the very first write.  Concretely, in
the four-card same-column scenario failing at the second write, the
final table carries the first shift committed and the failure toast. -/
theorem commit_failure_keeps_committed_head :
    (∀ (patches : List (Nat × UpdateTodoInput)) (store : TodoTable) (now f : Nat),
      f < patches.length →
        runUpdates store patches now (some f) 0 = (applyFirst store patches now f, true)) ∧
    (∀ a b c d : Rat, ∀ now : Nat,
      handleDropOnTodo (snap4 a b c d) (snap4 a b c d) 1 3 now (some 1) =
        ⟨[mkTodo 1 Status.backlog a,
          { mkTodo 2 Status.backlog b with order := b - 1, updatedAt := now },
          mkTodo 3 Status.backlog c, mkTodo 4 Status.backlog d], false, true⟩) := by
  constructor
  · intro patches store now f hf
    have h := runUpdates_failAt patches store now f 0 (Nat.zero_le f) (by simpa using hf)
    simpa using h
  · intro a b c d now
    exact dropDown_snap4_failAt1_eval a b c d now

/-- Witness for commit_failure_keeps_committed_head: a two-patch commit failing
at the second call, and the four-card scenario at orders 0,1,2,3. -/
theorem commit_failure_keeps_committed_head_witness :
    runUpdates [mkTodo 1 Status.backlog 0]
        [(1, ({ order := some 2 } : UpdateTodoInput)),
         (1, ({ order := some 3 } : UpdateTodoInput))] 5 (some 1) 0 =
      (applyFirst [mkTodo 1 Status.backlog 0]
        [(1, ({ order := some 2 } : UpdateTodoInput)),
         (1, ({ order := some 3 } : UpdateTodoInput))] 5 1, true) ∧
    handleDropOnTodo (snap4 0 1 2 3) (snap4 0 1 2 3) 1 3 12 (some 1) =
      ⟨[mkTodo 1 Status.backlog 0,
        { mkTodo 2 Status.backlog 1 with order := 1 - 1, updatedAt := 12 },
        mkTodo 3 Status.backlog 2, mkTodo 4 Status.backlog 3], false, true⟩ :=
  ⟨commit_failure_keeps_committed_head.1
      [(1, ({ order := some 2 } : UpdateTodoInput)),
       (1, ({ order := some 3 } : UpdateTodoInput))] [mkTodo 1 Status.backlog 0] 5 1
      (by decide),
   commit_failure_keeps_committed_head.2 0 1 2 3 12⟩
